import Mathlib

/-!
Verification development for the Sharedog Authorization & Gateway subsystem.

The definitions below are a shallow embedding of the TypeScript source:
  * `src/src/lib/oauth/index.ts`            — token codec, PKCE, scopes
  * `src/src/app/api/oauth/authorize/route.ts` — authorization endpoint (GET)
  * `src/src/app/api/oauth/clients/route.ts`   — token / revocation endpoints
  * `src/src/lib/stripe.ts`                 — entitlement resolver
  * `src/mcp-server/src/db/supabase.ts`     — worker token validation
  * `src/mcp-server/src/utils/rate-limit.ts`— fixed-window rate limiter
  * `src/mcp-server/src/index.ts`           — worker gateway dispatch
  * `src/src/app/api/mcp/[slug]/route.ts`   — Next.js MCP route

Stateful database code is embedded as explicit state passing over a `Db`
record; timestamps are naturals (milliseconds since epoch); randomness
(fresh token strings, fresh row ids) is passed in as explicit arguments.
-/

namespace Sharedog

/-! ## Byte-level primitives (Node `crypto` / `Buffer` behaviour)

SHA-256 over byte lists, hex and base64url rendering, and UTF-8 encoding,
modelling `createHash('sha256')`, `.digest('hex')` and
`.toString('base64url')` from the source. Bytes and 32-bit words are `Nat`
with explicit reduction modulo `2 ^ 32` / `2 ^ 8`. -/

def mod32 (n : Nat) : Nat := n % 4294967296

/-- A 32-bit right rotation. -/
def rotr (n x : Nat) : Nat := mod32 ((x >>> n) ||| (x <<< (32 - n)))

def shaCh (x y z : Nat) : Nat := (x &&& y) ^^^ ((x ^^^ 4294967295) &&& z)

def shaMaj (x y z : Nat) : Nat := (x &&& y) ^^^ (x &&& z) ^^^ (y &&& z)

def bigSigma0 (x : Nat) : Nat := rotr 2 x ^^^ rotr 13 x ^^^ rotr 22 x

def bigSigma1 (x : Nat) : Nat := rotr 6 x ^^^ rotr 11 x ^^^ rotr 25 x

def smallSigma0 (x : Nat) : Nat := rotr 7 x ^^^ rotr 18 x ^^^ (x >>> 3)

def smallSigma1 (x : Nat) : Nat := rotr 17 x ^^^ rotr 19 x ^^^ (x >>> 10)

/-- The 64 SHA-256 round constants, written in decimal. -/
def sha256K : List Nat :=
  [1116352408, 1899447441, 3049323471, 3921009573, 961987163,
   1508970993, 2453635748, 2870763221, 3624381080, 310598401,
   607225278, 1426881987, 1925078388, 2162078206, 2614888103,
   3248222580, 3835390401, 4022224774, 264347078, 604807628,
   770255983, 1249150122, 1555081692, 1996064986, 2554220882,
   2821834349, 2952996808, 3210313671, 3336571891, 3584528711,
   113926993, 338241895, 666307205, 773529912, 1294757372,
   1396182291, 1695183700, 1986661051, 2177026350, 2456956037,
   2730485921, 2820302411, 3259730800, 3345764771, 3516065817,
   3600352804, 4094571909, 275423344, 430227734, 506948616,
   659060556, 883997877, 958139571, 1322822218, 1537002063,
   1747873779, 1955562222, 2024104815, 2227730452, 2361852424,
   2428436474, 2756734187, 3204031479, 3329325298]

/-- The SHA-256 initial hash value, written in decimal. -/
def sha256H0 : List Nat :=
  [1779033703, 3144134277, 1013904242, 2773480762,
   1359893119, 2600822924, 528734635, 1541459225]

/-- Big-endian 8-byte rendering of a length-in-bits. -/
def beBytes8 (n : Nat) : List Nat :=
  [(n >>> 56) % 256, (n >>> 48) % 256, (n >>> 40) % 256, (n >>> 32) % 256,
   (n >>> 24) % 256, (n >>> 16) % 256, (n >>> 8) % 256, n % 256]

/-- Big-endian 4-byte rendering of a 32-bit word. -/
def beBytes4 (n : Nat) : List Nat :=
  [(n >>> 24) % 256, (n >>> 16) % 256, (n >>> 8) % 256, n % 256]

/-- SHA-256 padding: `0x80`, zeros to 56 mod 64, then the 64-bit bit length. -/
def padMessage (msg : List Nat) : List Nat :=
  let l := msg.length
  let zeros := (64 - ((l + 9) % 64)) % 64
  msg ++ [0x80] ++ List.replicate zeros 0 ++ beBytes8 (l * 8)

/-- Split a 64-byte block into sixteen big-endian 32-bit words. -/
def blockWords (block : List Nat) : List Nat :=
  (List.range 16).map fun i =>
    (block.getD (4 * i) 0) <<< 24 ||| (block.getD (4 * i + 1) 0) <<< 16 |||
    (block.getD (4 * i + 2) 0) <<< 8 ||| block.getD (4 * i + 3) 0

/-- Extend the sixteen block words to the 64-entry message schedule. -/
def extendSchedule (ws : List Nat) : List Nat :=
  (List.range 48).foldl
    (fun acc _ =>
      let n := acc.length
      let w := mod32 (smallSigma1 (acc.getD (n - 2) 0) + acc.getD (n - 7) 0 +
        smallSigma0 (acc.getD (n - 15) 0) + acc.getD (n - 16) 0)
      acc ++ [w])
    ws

/-- One round of the SHA-256 compression function. -/
def shaRound (st : List Nat) (kw : Nat × Nat) : List Nat :=
  match st with
  | [a, b, c, d, e, f, g, h] =>
    let t1 := mod32 (h + bigSigma1 e + shaCh e f g + kw.1 + kw.2)
    let t2 := mod32 (bigSigma0 a + shaMaj a b c)
    [mod32 (t1 + t2), a, b, c, mod32 (d + t1), e, f, g]
  | st => st

/-- Compress one 64-byte block into the running hash state. -/
def compressBlock (h : List Nat) (block : List Nat) : List Nat :=
  let ws := extendSchedule (blockWords block)
  let fin := (sha256K.zip ws).foldl shaRound h
  (h.zip fin).map fun p => mod32 (p.1 + p.2)

/-- SHA-256 of a byte list (each entry `< 256`), as 32 bytes. -/
def sha256Bytes (msg : List Nat) : List Nat :=
  let padded := padMessage msg
  let final := (List.range (padded.length / 64)).foldl
    (fun h i => compressBlock h ((padded.drop (64 * i)).take 64)) sha256H0
  final.foldr (fun w acc => beBytes4 w ++ acc) []

/-- UTF-8 encoding of one character, as bytes. -/
def utf8Char (c : Char) : List Nat :=
  let n := c.toNat
  if n < 0x80 then [n]
  else if n < 0x800 then
    [0xC0 ||| (n >>> 6), 0x80 ||| (n &&& 0x3F)]
  else if n < 0x10000 then
    [0xE0 ||| (n >>> 12), 0x80 ||| ((n >>> 6) &&& 0x3F), 0x80 ||| (n &&& 0x3F)]
  else
    [0xF0 ||| (n >>> 18), 0x80 ||| ((n >>> 12) &&& 0x3F),
     0x80 ||| ((n >>> 6) &&& 0x3F), 0x80 ||| (n &&& 0x3F)]

/-- UTF-8 bytes of a string (`Buffer.from(s)` / `hash.update(s)`). -/
def utf8Bytes (s : String) : List Nat :=
  s.data.foldr (fun c acc => utf8Char c ++ acc) []

def hexDigit (n : Nat) : Char :=
  if n < 10 then Char.ofNat (48 + n) else Char.ofNat (87 + n)

/-- Lowercase hex rendering of a byte list (`.digest('hex')`). -/
def bytesToHex (bs : List Nat) : String :=
  String.mk (bs.foldr (fun b acc => hexDigit (b >>> 4) :: hexDigit (b &&& 15) :: acc) [])

def base64urlChar (n : Nat) : Char :=
  if n < 26 then Char.ofNat (65 + n)
  else if n < 52 then Char.ofNat (97 + n - 26)
  else if n < 62 then Char.ofNat (48 + n - 52)
  else if n = 62 then Char.ofNat 45
  else Char.ofNat 95

/-- Unpadded base64url of a byte list (`Buffer.toString('base64url')`). -/
def base64urlGroups : List Nat → List Char
  | [] => []
  | [b1] => [base64urlChar (b1 >>> 2), base64urlChar ((b1 &&& 3) <<< 4)]
  | [b1, b2] =>
    [base64urlChar (b1 >>> 2), base64urlChar (((b1 &&& 3) <<< 4) ||| (b2 >>> 4)),
     base64urlChar ((b2 &&& 15) <<< 2)]
  | b1 :: b2 :: b3 :: rest =>
    base64urlChar (b1 >>> 2) :: base64urlChar (((b1 &&& 3) <<< 4) ||| (b2 >>> 4)) ::
    base64urlChar (((b2 &&& 15) <<< 2) ||| (b3 >>> 6)) :: base64urlChar (b3 &&& 63) ::
    base64urlGroups rest

def base64urlEncode (bs : List Nat) : String := String.mk (base64urlGroups bs)

/-! ## Kernel-reducible string helpers

Models of the JS string operations used by the source (`split`,
`startsWith`, `endsWith`, `toLowerCase`), written by structural recursion on
character lists so that concrete runs evaluate. -/

def isPrefixChars : List Char → List Char → Bool
  | [], _ => true
  | _ :: _, [] => false
  | a :: as, b :: bs => a == b && isPrefixChars as bs

/-- Split `rest` at every occurrence of the (non-empty) separator `sep`;
`cur` holds the reversed chars of the piece being built, `fuel` bounds the
recursion. -/
def splitOnCharsAux : Nat → List Char → List Char → List Char → List (List Char)
  | _, _sep, cur, [] => [cur.reverse]
  | 0, _sep, cur, rest => [cur.reverse ++ rest]
  | fuel + 1, sep, cur, c :: cs =>
    if isPrefixChars sep (c :: cs) then
      cur.reverse :: splitOnCharsAux fuel sep [] ((c :: cs).drop sep.length)
    else
      splitOnCharsAux fuel sep (c :: cur) cs

/-- JS `s.split(sep)` (also the behaviour of `String.splitOn` for the
separators used here). -/
def strSplitOn (s sep : String) : List String :=
  if sep = "" then [s]
  else (splitOnCharsAux (s.data.length + 1) sep.data [] s.data).map String.mk

def strStartsWith (s pre : String) : Bool := isPrefixChars pre.data s.data

def strEndsWith (s suf : String) : Bool :=
  isPrefixChars suf.data.reverse s.data.reverse

/-- ASCII lowercasing (all the strings compared case-insensitively in the
source are ASCII). -/
def charLower (c : Char) : Char :=
  if 65 ≤ c.toNat ∧ c.toNat ≤ 90 then Char.ofNat (c.toNat + 32) else c

def strToLower (s : String) : String := String.mk (s.data.map charLower)

/-! ## Token codec (`src/src/lib/oauth/index.ts`) -/

/-- Token expiration times, in seconds (`TOKEN_EXPIRY`). -/
def ACCESS_TOKEN_EXPIRY : Nat := 60 * 60

def REFRESH_TOKEN_EXPIRY : Nat := 60 * 60 * 24 * 30

def AUTH_CODE_EXPIRY : Nat := 60 * 10

/-- The `hashToken`: SHA-256 hex digest of a token. -/
def hashToken (token : String) : String := bytesToHex (sha256Bytes (utf8Bytes token))

/-- The `validateCodeChallenge`: under `'plain'` compare verbatim, otherwise
compare against `BASE64URL(SHA256(code_verifier))`. -/
def validateCodeChallenge (codeVerifier codeChallenge method : String) : Bool :=
  if method == "plain" then codeVerifier == codeChallenge
  else base64urlEncode (sha256Bytes (utf8Bytes codeVerifier)) == codeChallenge

/-- The `generateCodeChallenge`: the challenge computed at authorization time. -/
def generateCodeChallenge (codeVerifier method : String) : String :=
  if method == "plain" then codeVerifier
  else base64urlEncode (sha256Bytes (utf8Bytes codeVerifier))

/-- The `OAUTH_SCOPES` (`Object.values` order) and `DEFAULT_SCOPES`. -/
def OAUTH_SCOPES : List String := ["search", "list_sources", "get_info"]

def DEFAULT_SCOPES : List String := ["search", "list_sources", "get_info"]

/-- The `parseScopes`: a falsy (absent or empty) scope string yields the default
scopes; otherwise keep the recognized entries, falling back to the default
scopes when none remain. -/
def parseScopes (scopeString : Option String) : List String :=
  match scopeString with
  | none => DEFAULT_SCOPES
  | some s =>
    if s = "" then DEFAULT_SCOPES
    else
      let requested := (strSplitOn s " ").filter (fun x => x ≠ "")
      let valid := requested.filter (fun x => OAUTH_SCOPES.contains x)
      if valid.isEmpty then DEFAULT_SCOPES else valid

/-- Modelled behaviour of WHATWG `new URL(uri).hostname` as used by
`isValidRedirectUri`: for a `scheme://host[:port][/path]` shape return the
(lowercased) host, and `none` for the thrown-exception case. -/
def urlHostname (uri : String) : Option String :=
  match strSplitOn uri "://" with
  | [scheme, rest] =>
    if scheme = "" ∨ rest = "" then none
    else
      let hostPort := (strSplitOn rest "/").headD ""
      let host := (strSplitOn hostPort ":").headD ""
      if host = "" then none else some (strToLower host)
  | _ => none

/-- The `isValidRedirectUri`: unparsable URIs are rejected; `localhost` and
`127.0.0.1` are always allowed; otherwise require an exact allow-list match or
a `*.`-prefixed suffix match on the hostname. -/
def isValidRedirectUri (uri : String) (allowedUris : List String) : Bool :=
  match urlHostname uri with
  | none => false
  | some host =>
    if host == "localhost" || host == "127.0.0.1" then true
    else
      allowedUris.any fun allowed =>
        if uri == allowed then true
        else if strStartsWith allowed "*." then
          strEndsWith host (String.mk (allowed.data.drop 2))
        else false

/-! ## Data model (`supabase/migrations/00004_oauth_infrastructure.sql`,
`00005` kb_subscriptions migration) -/

/-- Milliseconds since epoch (`Date.now()` / `new Date()` comparisons). -/
abbrev Millis := Nat

structure KnowledgeBase where
  id : String
  user_id : String
  slug : String
  visibility : String
  pricing_model : String
  mcp_enabled : Bool
  deriving DecidableEq, Repr

structure OAuthClient where
  client_id : String
  client_secret_hash : String
  knowledge_base_id : String
  user_id : String
  name : String
  redirect_uris : List String
  scopes : List String
  revoked_at : Option Millis
  deriving DecidableEq, Repr

structure OAuthCode where
  id : String
  code_hash : String
  client_id : String
  knowledge_base_id : String
  user_id : String
  redirect_uri : String
  scopes : List String
  code_challenge : Option String
  code_challenge_method : Option String
  expires_at : Millis
  used_at : Option Millis
  deriving DecidableEq, Repr

structure OAuthToken where
  id : String
  client_id : String
  knowledge_base_id : String
  user_id : String
  access_token_hash : String
  refresh_token_hash : Option String
  scopes : List String
  expires_at : Millis
  refresh_expires_at : Option Millis
  last_used_at : Option Millis
  subscription_id : Option String
  deriving DecidableEq, Repr

structure Subscription where
  id : String
  knowledge_base_id : String
  subscriber_id : String
  status : String
  current_period_end : Option Millis
  deriving DecidableEq, Repr

/-- The credential store: the tables touched by the core. -/
structure Db where
  kbs : List KnowledgeBase
  clients : List OAuthClient
  codes : List OAuthCode
  tokens : List OAuthToken
  subs : List Subscription
  deriving DecidableEq, Repr

/-- PostgREST `.single()`: a value only when exactly one row matches. -/
def single {α : Type} (rows : List α) : Option α :=
  match rows with
  | [r] => some r
  | _ => none

/-- JS truthiness of an optional string: `null`/`undefined` and `''` are falsy. -/
def truthy (s : Option String) : Bool :=
  match s with
  | none => false
  | some v => !(v == "")

/-- Space-join of a scope array (`scopes.join(' ')`). -/
def joinScopes (scopes : List String) : String := String.intercalate " " scopes

/-! ## Token endpoint (`src/src/app/api/oauth/clients/route.ts`, token part) -/

/-- Outcome of a token-endpoint grant handler: either the token JSON
response or an OAuth error (`oauthError` without a redirect URI, HTTP 400). -/
inductive TokenResult where
  | ok (access_token : String) (token_type : String) (expires_in : Nat)
      (refresh_token : String) (scope : String)
  | err (error : String) (description : String)
  deriving DecidableEq, Repr

/-- Body of a `POST /api/oauth/token` request (fields may be absent). -/
structure TokenBody where
  grant_type : Option String := none
  code : Option String := none
  redirect_uri : Option String := none
  client_id : Option String := none
  code_verifier : Option String := none
  refresh_token : Option String := none
  deriving DecidableEq, Repr

/-- The `UPDATE oauth_codes SET used_at = now WHERE id = codeId`. -/
def markCodeUsed (db : Db) (codeId : String) (now : Millis) : Db :=
  { db with codes := db.codes.map fun r =>
      if r.id == codeId then { r with used_at := some now } else r }

/-- The `handleAuthorizationCode`: look up the code by hash among unused rows,
reject expired (marking it used), mismatched or PKCE-failing requests, then
mark the code used and insert a fresh token pair. Fresh random values
(`generateAccessToken` / `generateRefreshToken` outputs and the new row id)
are passed in explicitly. -/
def handleAuthorizationCode (body : TokenBody) (db : Db) (now : Millis)
    (newAccess newRefresh newTokenId : String) : TokenResult × Db :=
  if !(truthy body.code && truthy body.redirect_uri &&
      truthy body.client_id && truthy body.code_verifier) then
    (.err "invalid_request"
      "Missing required parameters: code, redirect_uri, client_id, code_verifier", db)
  else
    let code := body.code.getD ""
    let redirectUri := body.redirect_uri.getD ""
    let clientId := body.client_id.getD ""
    let codeVerifier := body.code_verifier.getD ""
    let codeHash := hashToken code
    match single (db.codes.filter fun r =>
        r.code_hash == codeHash && r.used_at == none) with
    | none => (.err "invalid_grant" "Invalid or expired authorization code", db)
    | some authCode =>
      if authCode.expires_at < now then
        (.err "invalid_grant" "Authorization code has expired",
          markCodeUsed db authCode.id now)
      else if authCode.client_id ≠ clientId then
        (.err "invalid_grant" "Client ID mismatch", db)
      else if authCode.redirect_uri ≠ redirectUri then
        (.err "invalid_grant" "Redirect URI mismatch", db)
      else
        let challengeMethod :=
          if truthy authCode.code_challenge_method then
            authCode.code_challenge_method.getD ""
          else "S256"
        if !(validateCodeChallenge codeVerifier (authCode.code_challenge.getD "")
            challengeMethod) then
          (.err "invalid_grant" "Invalid code verifier", db)
        else
          let db1 := markCodeUsed db authCode.id now
          let tokenRow : OAuthToken :=
            { id := newTokenId
              client_id := authCode.client_id
              knowledge_base_id := authCode.knowledge_base_id
              user_id := authCode.user_id
              access_token_hash := hashToken newAccess
              refresh_token_hash := some (hashToken newRefresh)
              scopes := authCode.scopes
              expires_at := now + ACCESS_TOKEN_EXPIRY * 1000
              refresh_expires_at := some (now + REFRESH_TOKEN_EXPIRY * 1000)
              last_used_at := none
              subscription_id := none }
          (.ok newAccess "Bearer" ACCESS_TOKEN_EXPIRY newRefresh
            (joinScopes authCode.scopes),
           { db1 with tokens := db1.tokens ++ [tokenRow] })

/-- The `UPDATE oauth_tokens SET (new hashes, expiries, last_used_at) WHERE id`. -/
def rotateTokenRow (db : Db) (tokenId newAccessHash newRefreshHash : String)
    (now : Millis) : Db :=
  { db with tokens := db.tokens.map fun t =>
      if t.id == tokenId then
        { t with
          access_token_hash := newAccessHash
          refresh_token_hash := some newRefreshHash
          expires_at := now + ACCESS_TOKEN_EXPIRY * 1000
          refresh_expires_at := some (now + REFRESH_TOKEN_EXPIRY * 1000)
          last_used_at := some now }
      else t }

/-- The `handleRefreshToken`: look up by refresh-token hash, evict an expired
row, optionally check `client_id`, then rotate both tokens in place. -/
def handleRefreshToken (body : TokenBody) (db : Db) (now : Millis)
    (newAccess newRefresh : String) : TokenResult × Db :=
  if !(truthy body.refresh_token) then
    (.err "invalid_request" "Missing refresh_token", db)
  else
    let rt := body.refresh_token.getD ""
    let refreshTokenHash := hashToken rt
    match single (db.tokens.filter fun t =>
        t.refresh_token_hash == some refreshTokenHash) with
    | none => (.err "invalid_grant" "Invalid refresh token", db)
    | some existingToken =>
      if existingToken.refresh_expires_at.any (fun e => decide (e < now)) then
        (.err "invalid_grant" "Refresh token has expired",
          { db with tokens := db.tokens.filter fun t => !(t.id == existingToken.id) })
      else if truthy body.client_id &&
          !(existingToken.client_id == body.client_id.getD "") then
        (.err "invalid_grant" "Client ID mismatch", db)
      else
        (.ok newAccess "Bearer" ACCESS_TOKEN_EXPIRY newRefresh
          (joinScopes existingToken.scopes),
         rotateTokenRow db existingToken.id (hashToken newAccess)
           (hashToken newRefresh) now)

/-- The `POST /api/oauth/token`: dispatch on `grant_type`. -/
def tokenPost (body : TokenBody) (db : Db) (now : Millis)
    (newAccess newRefresh newTokenId : String) : TokenResult × Db :=
  if body.grant_type == some "authorization_code" then
    handleAuthorizationCode body db now newAccess newRefresh newTokenId
  else if body.grant_type == some "refresh_token" then
    handleRefreshToken body db now newAccess newRefresh
  else
    (.err "unsupported_grant_type"
      "Supported grant types: authorization_code, refresh_token", db)

/-! ## Revocation endpoint (`src/src/app/api/oauth/clients/route.ts`, revoke part) -/

structure RevokeBody where
  token : Option String := none
  token_type_hint : Option String := none
  deriving DecidableEq, Repr

/-- The `DELETE FROM oauth_tokens WHERE access_token_hash = h` returning the
number of deleted rows (the `.select('id')` result length). -/
def deleteByAccessHash (db : Db) (h : String) : Nat × Db :=
  ((db.tokens.filter fun t => t.access_token_hash == h).length,
   { db with tokens := db.tokens.filter fun t => !(t.access_token_hash == h) })

def deleteByRefreshHash (db : Db) (h : String) : Db :=
  { db with tokens := db.tokens.filter fun t => !(t.refresh_token_hash == some h) }

/-- The `POST /api/oauth/revoke` (body already parsed from a supported content
type): returns the HTTP status and the updated store. Per RFC 7009 the
status is 200 whether or not anything matched. -/
def revokePost (body : RevokeBody) (db : Db) : Nat × Db :=
  if !(truthy body.token) then (400, db)
  else
    let tokenHash := hashToken (body.token.getD "")
    if body.token_type_hint == some "refresh_token" then
      (200, deleteByRefreshHash db tokenHash)
    else
      let (deleted, db1) := deleteByAccessHash db tokenHash
      if deleted == 0 then (200, deleteByRefreshHash db1 tokenHash)
      else (200, db1)

/-! ## Authorization endpoint (`src/src/app/api/oauth/authorize/route.ts`) -/

/-- Query parameters of `GET /api/oauth/authorize`. -/
structure AuthorizeParams where
  client_id : Option String := none
  redirect_uri : Option String := none
  response_type : Option String := none
  scope : Option String := none
  state : Option String := none
  code_challenge : Option String := none
  code_challenge_method : Option String := none
  deriving DecidableEq, Repr

/-- Outcome of the authorization endpoint: a JSON 400 (`oauthError` without a
resolvable redirect URI), an OAuth error redirect, a redirect to login, or the
success redirect carrying the fresh code. -/
inductive AuthorizeResult where
  | errorJson (error description : String)
  | errorRedirect (redirectUri error description : String) (state : Option String)
  | loginRedirect
  | codeRedirect (redirectUri code : String) (state : Option String)
  deriving DecidableEq, Repr

/-- The `oauth_clients` lookup with its `knowledge_bases!inner` join: the
single row matching `client_id` with `revoked_at` null, paired with its
knowledge base (inner join drops clients whose KB row is missing). -/
def lookupClientWithKb (db : Db) (clientId : String) :
    Option (OAuthClient × KnowledgeBase) :=
  single ((db.clients.filter fun c =>
      c.client_id == clientId && c.revoked_at == none).filterMap fun c =>
    (db.kbs.find? fun k => k.id == c.knowledge_base_id).map fun k => (c, k))

/-- The `GET /api/oauth/authorize`. The authenticated principal (if any) is
`user`; the fresh authorization-code value and its row id are passed in. -/
def authorizeGET (p : AuthorizeParams) (user : Option String) (db : Db)
    (now : Millis) (newAuthCode newCodeId : String) : AuthorizeResult × Db :=
  if !(truthy p.client_id) then
    (.errorJson "invalid_request" "client_id is required", db)
  else if !(truthy p.redirect_uri) then
    (.errorJson "invalid_request" "redirect_uri is required", db)
  else
    let clientId := p.client_id.getD ""
    let redirectUri := p.redirect_uri.getD ""
    if p.response_type ≠ some "code" then
      (.errorRedirect redirectUri "unsupported_response_type"
        "Only response_type=code is supported" p.state, db)
    else if !(truthy p.code_challenge) then
      (.errorRedirect redirectUri "invalid_request"
        "code_challenge is required (PKCE)" p.state, db)
    else if p.code_challenge_method ≠ some "S256" then
      (.errorRedirect redirectUri "invalid_request"
        "code_challenge_method must be S256" p.state, db)
    else
      match user with
      | none => (.loginRedirect, db)
      | some uid =>
        match lookupClientWithKb db clientId with
        | none =>
          (.errorRedirect redirectUri "invalid_client"
            "Invalid or revoked client" p.state, db)
        | some (client, kb) =>
          if kb.user_id ≠ uid then
            (.errorRedirect redirectUri "access_denied"
              "You do not have permission to authorize this client" p.state, db)
          else if !(isValidRedirectUri redirectUri client.redirect_uris) then
            (.errorJson "invalid_request" "Invalid redirect_uri", db)
          else
            let requestedScopes := parseScopes p.scope
            let allowedScopes := client.scopes
            let validScopes := requestedScopes.filter fun s => allowedScopes.contains s
            if validScopes.isEmpty then
              (.errorRedirect redirectUri "invalid_scope"
                "No valid scopes requested" p.state, db)
            else
              let row : OAuthCode :=
                { id := newCodeId
                  code_hash := hashToken newAuthCode
                  client_id := clientId
                  knowledge_base_id := client.knowledge_base_id
                  user_id := uid
                  redirect_uri := redirectUri
                  scopes := validScopes
                  code_challenge := p.code_challenge
                  code_challenge_method := p.code_challenge_method
                  expires_at := now + AUTH_CODE_EXPIRY * 1000
                  used_at := none }
              (.codeRedirect redirectUri newAuthCode p.state,
               { db with codes := db.codes ++ [row] })

/-! ## Entitlement resolver (`src/src/lib/stripe.ts`) -/

/-- Result of `hasKBAccess`: denied, or allowed optionally carrying the
matched subscription's `(id, status)`. -/
inductive AccessResult where
  | denied
  | allowed (subscription : Option (String × String))
  deriving DecidableEq, Repr

/-- The `hasKBAccess`: owner bypass, then the public/mcp gate, then the free-tier
bypass, then the active/trialing unexpired subscription check. -/
def hasKBAccess (db : Db) (knowledgeBaseId userId : String) (now : Millis) :
    AccessResult :=
  match single (db.kbs.filter fun k => k.id == knowledgeBaseId) with
  | none => .denied
  | some kb =>
    if kb.user_id == userId then .allowed none
    else if kb.visibility ≠ "public" ∨ kb.mcp_enabled = false then .denied
    else if kb.pricing_model == "free" then .allowed none
    else
      match single (db.subs.filter fun s =>
          s.knowledge_base_id == knowledgeBaseId && s.subscriber_id == userId &&
          (s.status == "active" || s.status == "trialing")) with
      | none => .denied
      | some subscription =>
        if subscription.current_period_end.any (fun e => decide (e < now)) then
          .denied
        else .allowed (some (subscription.id, subscription.status))

/-- The `createFreeSubscription`: insert an `active` row; a unique-constraint
conflict (Postgres 23505 on `UNIQUE(knowledge_base_id, subscriber_id)`)
resolves to fetching the existing record. Returns the record id. -/
def createFreeSubscription (db : Db) (knowledgeBaseId userId newSubId : String) :
    Option String × Db :=
  if db.subs.any (fun s =>
      s.knowledge_base_id == knowledgeBaseId && s.subscriber_id == userId) then
    ((single (db.subs.filter fun s =>
        s.knowledge_base_id == knowledgeBaseId && s.subscriber_id == userId)).map
      (fun s => s.id), db)
  else
    (some newSubId,
     { db with subs := db.subs ++
        [{ id := newSubId
           knowledge_base_id := knowledgeBaseId
           subscriber_id := userId
           status := "active"
           current_period_end := none }] })

/-! ## Rate limiter (`src/mcp-server/src/utils/rate-limit.ts`) -/

def KB_LIMIT : Nat := 60

def CLIENT_LIMIT : Nat := 30

def WINDOW_SIZE : Nat := 60

/-- The Workers KV namespace for counters: an association of keys to counts.
TTL is not modelled — every key embeds its window start, so counters from an
elapsed window are never read again. -/
abbrev RateStore := List (String × Nat)

def kvGet (store : RateStore) (key : String) : Option Nat :=
  (store.find? fun p => p.1 == key).map fun p => p.2

def kvPut (store : RateStore) (key : String) (v : Nat) : RateStore :=
  (key, v) :: store.filter fun p => !(p.1 == key)

/-- The `getRateLimitKey`: keyed per client when a (truthy) client id is given,
per knowledge base otherwise, embedding the truncated window start. -/
def getRateLimitKey (kbId : String) (clientId : Option String) (nowMs : Millis) :
    String :=
  let windowStart := nowMs / 1000 / WINDOW_SIZE * WINDOW_SIZE
  match clientId with
  | some cid =>
    if cid == "" then s!"rate:{kbId}:{windowStart}"
    else s!"rate:{kbId}:{cid}:{windowStart}"
  | none => s!"rate:{kbId}:{windowStart}"

structure RateLimitInfo where
  allowed : Bool
  remaining : Nat
  resetAt : Nat
  limit : Nat
  deriving DecidableEq, Repr

/-- The `checkRateLimit`: read the window counter for the derived key; reject at
or over the limit, otherwise increment. (The fail-open catch branch guards a
store outage, which the total model does not exhibit.) -/
def checkRateLimit (store : RateStore) (kbId : String) (clientId : Option String)
    (nowMs : Millis) : RateLimitInfo × RateStore :=
  let key := getRateLimitKey kbId clientId nowMs
  let limit := if truthy clientId then CLIENT_LIMIT else KB_LIMIT
  let windowStart := nowMs / 1000 / WINDOW_SIZE * WINDOW_SIZE
  let resetAt := windowStart + WINDOW_SIZE
  let count := (kvGet store key).getD 0
  if limit ≤ count then
    ({ allowed := false, remaining := 0, resetAt := resetAt, limit := limit }, store)
  else
    ({ allowed := true, remaining := limit - count - 1, resetAt := resetAt,
       limit := limit }, kvPut store key (count + 1))

/-! ## Worker token validation (`src/mcp-server/src/db/supabase.ts`,
`src/mcp-server/src/auth/validate.ts`) -/

/-- Result of worker-side token validation. `internalError` stands for the
thrown `TypeError` when the `knowledge_bases(*)` join row is absent (the
foreign key makes this unreachable in a consistent store); the worker's
`catch` turns it into a 500. -/
inductive ValidationResult where
  | invalid (error : String)
  | internalError
  | valid (kb : KnowledgeBase) (userId clientId : String) (scopes : List String)
      (subscriptionId : Option String)
  deriving DecidableEq, Repr

/-- The `UPDATE oauth_tokens SET last_used_at = now WHERE id`. -/
def touchToken (db : Db) (tokenId : String) (now : Millis) : Db :=
  { db with tokens := db.tokens.map fun t =>
      if t.id == tokenId then { t with last_used_at := some now } else t }

/-- The `validateAccessToken`: look the token up by access-token hash, lazily
check expiry, and for a paid knowledge base re-verify the linked subscription
(owner tokens bypass it); on success stamp `last_used_at`. -/
def validateAccessToken (db : Db) (tokenHash : String) (now : Millis) :
    ValidationResult × Db :=
  match single (db.tokens.filter fun t => t.access_token_hash == tokenHash) with
  | none => (.invalid "Invalid access token", db)
  | some token =>
    if token.expires_at < now then (.invalid "Access token expired", db)
    else
      match db.kbs.find? fun k => k.id == token.knowledge_base_id with
      | none => (.internalError, db)
      | some kb =>
        let proceed : ValidationResult × Db :=
          (.valid kb token.user_id token.client_id token.scopes
            token.subscription_id,
           touchToken db token.id now)
        if kb.pricing_model == "paid" then
          if token.user_id == kb.user_id then proceed
          else
            match token.subscription_id with
            | some sid =>
              match single (db.subs.filter fun s => s.id == sid) with
              | none =>
                (.invalid "Subscription required for this knowledge base", db)
              | some subscription =>
                if subscription.status ≠ "active" ∧
                    subscription.status ≠ "trialing" then
                  (.invalid "Subscription is not active", db)
                else if subscription.current_period_end.any
                    (fun e => decide (e < now)) then
                  (.invalid "Subscription has expired", db)
                else proceed
            | none =>
              (.invalid "Subscription required for this knowledge base", db)
        else proceed

/-- The `getKnowledgeBaseBySlug`: the single row with this slug and MCP enabled. -/
def getKnowledgeBaseBySlug (db : Db) (slug : String) : Option KnowledgeBase :=
  single (db.kbs.filter fun k => k.slug == slug && k.mcp_enabled)

/-- Worker `validateToken`: parse the `Authorization` header, require the
`sha_kb_` access-token prefix, resolve the slug, validate the hashed token,
and require the token to be bound to the addressed knowledge base. -/
def validateToken (authHeader : Option String) (slug : String) (db : Db)
    (now : Millis) : ValidationResult × Db :=
  match authHeader with
  | none => (.invalid "Missing Authorization header", db)
  | some header =>
    let parts := strSplitOn header " "
    if parts.length ≠ 2 ∨ strToLower (parts.headD "") ≠ "bearer" then
      (.invalid "Invalid Authorization header format", db)
    else
      let token := parts.getD 1 ""
      if !(strStartsWith token "sha_kb_") then
        (.invalid "Invalid token format", db)
      else
        match getKnowledgeBaseBySlug db slug with
        | none => (.invalid "Knowledge base not found or MCP not enabled", db)
        | some kb =>
          let tokenHash := hashToken token
          match validateAccessToken db tokenHash now with
          | (.invalid e, db1) => (.invalid e, db1)
          | (.internalError, db1) => (.internalError, db1)
          | (.valid tkb userId clientId scopes subId, db1) =>
            if tkb.id ≠ kb.id then
              (.invalid "Token not valid for this knowledge base", db)
            else (.valid tkb userId clientId scopes subId, db1)

/-! ## Worker gateway dispatch (`src/mcp-server/src/index.ts`, POST branch)

`bodyValid` abstracts steps 6–7 at their boundary: `true` when the request
body is parseable JSON accepted by `parseMCPRequest` (the worker then always
answers 200 with the JSON-RPC payload inside), `false` otherwise (400). -/

/-- The POST `/mcp/{slug}` pipeline: 401 on invalid token, 500 when
`createAuthContext` rejects the validated result (missing user/client id) or
on a thrown error, 429 when rate limited, 400 on a malformed body, else 200. -/
def workerPost (authHeader : Option String) (slug : String) (db : Db)
    (now : Millis) (store : RateStore) (bodyValid : Bool) :
    Nat × Db × RateStore :=
  match validateToken authHeader slug db now with
  | (.invalid _, db1) => (401, db1, store)
  | (.internalError, db1) => (500, db1, store)
  | (.valid kb userId clientId _scopes _subId, db1) =>
    if userId == "" || clientId == "" then (500, db1, store)
    else
      let (rateLimitInfo, store1) := checkRateLimit store kb.id (some clientId) now
      if !rateLimitInfo.allowed then (429, db1, store1)
      else if !bodyValid then (400, db1, store1)
      else (200, db1, store1)

/-! ## Next.js MCP route (`src/src/app/api/mcp/[slug]/route.ts`, POST) -/

/-- The `POST /api/mcp/[slug]` up to the dispatch boundary: 404 when the slug
resolves to no MCP-enabled knowledge base, 403 when it is not public, and
otherwise the JSON-RPC body handling proceeds (modelled as 200). -/
def nextMcpPost (slug : String) (db : Db) : Nat :=
  match getKnowledgeBaseBySlug db slug with
  | none => 404
  | some kb => if kb.visibility ≠ "public" then 403 else 200

/-! ## Concrete fixtures

Small concrete store states used to evaluate the endpoints on explicit
inputs. -/

def kb9 : KnowledgeBase :=
  { id := "kb1", user_id := "owner", slug := "kb-slug", visibility := "public",
    pricing_model := "free", mcp_enabled := true }

/-- A client registered with an empty granted-scope set (registration keeps
`scopes: []` verbatim, because an empty array is truthy in JS). -/
def client9 : OAuthClient :=
  { client_id := "cid1", client_secret_hash := "sh", knowledge_base_id := "kb1",
    user_id := "owner", name := "app", redirect_uris := ["https://x.test/cb"],
    scopes := [], revoked_at := none }

def client9b : OAuthClient := { client9 with scopes := ["search"] }

def db9 : Db := { kbs := [kb9], clients := [client9], codes := [], tokens := [], subs := [] }

def db9b : Db := { kbs := [kb9], clients := [client9b], codes := [], tokens := [], subs := [] }

/-- An authorization request whose scope parameter holds only the
unrecognized entry `bogus`. -/
def params9 : AuthorizeParams :=
  { client_id := some "cid1", redirect_uri := some "https://x.test/cb",
    response_type := some "code", scope := some "bogus", state := some "st",
    code_challenge := some "chal", code_challenge_method := some "S256" }

def kb1c : KnowledgeBase :=
  { id := "kb1", user_id := "owner", slug := "slug1", visibility := "public",
    pricing_model := "free", mcp_enabled := true }

/-- A client whose revocation time is set. -/
def client1c : OAuthClient :=
  { client_id := "cid1", client_secret_hash := "sh", knowledge_base_id := "kb1",
    user_id := "owner", name := "app", redirect_uris := ["https://x.test/cb"],
    scopes := ["search"], revoked_at := some 500 }

/-- A valid, unused, unexpired authorization code bound to the revoked
client `cid1`. -/
def code1c : OAuthCode :=
  { id := "code1", code_hash := hashToken "shc_abc", client_id := "cid1",
    knowledge_base_id := "kb1", user_id := "owner",
    redirect_uri := "https://x.test/cb", scopes := ["search"],
    code_challenge := some (generateCodeChallenge "myverifier" "S256"),
    code_challenge_method := some "S256", expires_at := 600000, used_at := none }

def db1c : Db :=
  { kbs := [kb1c], clients := [client1c], codes := [code1c], tokens := [], subs := [] }

def body1c : TokenBody :=
  { grant_type := some "authorization_code", code := some "shc_abc",
    redirect_uri := some "https://x.test/cb", client_id := some "cid1",
    code_verifier := some "myverifier" }

def params1c : AuthorizeParams :=
  { client_id := some "cid1", redirect_uri := some "https://x.test/cb",
    response_type := some "code", scope := some "search", state := none,
    code_challenge := some "chal", code_challenge_method := some "S256" }

def code2c : OAuthCode :=
  { id := "code2", code_hash := hashToken "shc_c2", client_id := "cid2",
    knowledge_base_id := "kb2", user_id := "user2",
    redirect_uri := "https://y.test/cb", scopes := ["search", "get_info"],
    code_challenge := some (generateCodeChallenge "ver2" "S256"),
    code_challenge_method := some "S256", expires_at := 600000, used_at := none }

def db2c : Db := { kbs := [], clients := [], codes := [code2c], tokens := [], subs := [] }

def body2c : TokenBody :=
  { grant_type := some "authorization_code", code := some "shc_c2",
    redirect_uri := some "https://y.test/cb", client_id := some "cid2",
    code_verifier := some "ver2" }

def tok3c : OAuthToken :=
  { id := "tok3", client_id := "cid3", knowledge_base_id := "kb3",
    user_id := "user3", access_token_hash := hashToken "sha_kb_old",
    refresh_token_hash := some (hashToken "shr_old"), scopes := ["search"],
    expires_at := 3600000, refresh_expires_at := some 2592000000,
    last_used_at := none, subscription_id := none }

def db3c : Db := { kbs := [], clients := [], codes := [], tokens := [tok3c], subs := [] }

def body3c : TokenBody :=
  { grant_type := some "refresh_token", refresh_token := some "shr_old" }

def kb4c : KnowledgeBase :=
  { id := "kb4", user_id := "owner4", slug := "slug4", visibility := "public",
    pricing_model := "paid", mcp_enabled := true }

/-- A `past_due` subscription with a period end far in the future. -/
def sub4c : Subscription :=
  { id := "sub4", knowledge_base_id := "kb4", subscriber_id := "stranger",
    status := "past_due", current_period_end := some 9999999999999 }

/-- An unexpired access token for `stranger`, linked to `sub4`. -/
def tok4c : OAuthToken :=
  { id := "tok4", client_id := "cid4", knowledge_base_id := "kb4",
    user_id := "stranger", access_token_hash := "ath4",
    refresh_token_hash := some "rth4", scopes := ["search"],
    expires_at := 7200000, refresh_expires_at := some 2592000000,
    last_used_at := none, subscription_id := some "sub4" }

def db4c : Db :=
  { kbs := [kb4c], clients := [], codes := [], tokens := [tok4c], subs := [sub4c] }

def kb6f : KnowledgeBase :=
  { id := "kbF", user_id := "ownerF", slug := "slugF", visibility := "public",
    pricing_model := "free", mcp_enabled := true }

def db6f : Db := { kbs := [kb6f], clients := [], codes := [], tokens := [], subs := [] }

def kb6p : KnowledgeBase :=
  { id := "kbP", user_id := "ownerP", slug := "slugP", visibility := "public",
    pricing_model := "paid", mcp_enabled := true }

def sub6p : Subscription :=
  { id := "subP", knowledge_base_id := "kbP", subscriber_id := "alice",
    status := "active", current_period_end := none }

def db6p : Db := { kbs := [kb6p], clients := [], codes := [], tokens := [], subs := [sub6p] }

/-- An `active` subscription whose current period end has already elapsed. -/
def sub6x : Subscription :=
  { id := "subX", knowledge_base_id := "kbP", subscriber_id := "carol",
    status := "active", current_period_end := some 500 }

def db6x : Db := { kbs := [kb6p], clients := [], codes := [], tokens := [], subs := [sub6x] }

/-! ## Helper lemmas -/

theorem single_eq_some_iff {α : Type} (xs : List α) (c : α) :
    single xs = some c ↔ xs = [c] := by
  cases xs with
  | nil => simp [single]
  | cons a t => cases t <;> simp [single]

theorem single_eq_none_of_nil {α : Type} : single ([] : List α) = none := rfl

/-- After marking the looked-up code consumed, no row matches the
`(code_hash, unused)` lookup anymore. -/
theorem filter_markCodeUsed_eq_nil (db : Db) (H : String) (c : OAuthCode)
    (now : Millis)
    (h : db.codes.filter (fun r => r.code_hash == H && r.used_at == none) = [c]) :
    (markCodeUsed db c.id now).codes.filter
      (fun r => r.code_hash == H && r.used_at == none) = [] := by
  rw [List.filter_eq_nil_iff]
  intro x hx
  simp only [markCodeUsed] at hx
  rw [List.mem_map] at hx
  obtain ⟨r, hr, rfl⟩ := hx
  by_cases hid : (r.id == c.id) = true
  · simp [hid]
  · simp only [hid, if_false, Bool.false_eq_true]
    intro hPx
    have hmem : r ∈ db.codes.filter
        (fun r => r.code_hash == H && r.used_at == none) :=
      List.mem_filter.mpr ⟨hr, hPx⟩
    rw [h, List.mem_singleton] at hmem
    subst hmem
    exact hid (by simp)

/-- After rotating the looked-up token row to a fresh refresh-token hash, no
row matches the old refresh-token hash anymore. -/
theorem filter_rotateTokenRow_eq_nil (db : Db) (H : String) (tok : OAuthToken)
    (nAH nRH : String) (now : Millis)
    (h : db.tokens.filter (fun t => t.refresh_token_hash == some H) = [tok])
    (hne : nRH ≠ H) :
    (rotateTokenRow db tok.id nAH nRH now).tokens.filter
      (fun t => t.refresh_token_hash == some H) = [] := by
  rw [List.filter_eq_nil_iff]
  intro x hx
  simp only [rotateTokenRow] at hx
  rw [List.mem_map] at hx
  obtain ⟨r, hr, rfl⟩ := hx
  by_cases hid : (r.id == tok.id) = true
  · simp [hid, hne]
  · simp only [hid, if_false, Bool.false_eq_true]
    intro hPx
    have hmem : r ∈ db.tokens.filter
        (fun t => t.refresh_token_hash == some H) :=
      List.mem_filter.mpr ⟨hr, hPx⟩
    rw [h, List.mem_singleton] at hmem
    subst hmem
    exact hid (by simp)

/-- Inversion of a successful code exchange: the lookup found exactly one
unused row with the code's hash, and the output store carries that row marked
consumed (plus the freshly inserted token pair, which leaves `codes`
untouched). -/
theorem handleAuthorizationCode_ok_inv (body : TokenBody) (db : Db)
    (now : Millis) (a r i at2 ty : String) (ei : Nat) (rt sc : String)
    (db1 : Db)
    (h : handleAuthorizationCode body db now a r i = (.ok at2 ty ei rt sc, db1)) :
    ∃ c : OAuthCode,
      single (db.codes.filter fun x =>
        x.code_hash == hashToken (body.code.getD "") && x.used_at == none) =
          some c ∧
      db1.codes = (markCodeUsed db c.id now).codes := by
  by_cases hg : (truthy body.code && truthy body.redirect_uri &&
      truthy body.client_id && truthy body.code_verifier) = true
  case neg =>
    simp [handleAuthorizationCode, hg] at h
  case pos =>
    rcases hs : single (db.codes.filter fun x =>
        x.code_hash == hashToken (body.code.getD "") && x.used_at == none)
      with _ | c
    · simp [handleAuthorizationCode, hg, hs] at h
    · simp only [handleAuthorizationCode, hg, Bool.not_true,
        Bool.false_eq_true, if_false, hs] at h
      refine ⟨c, hs, ?_⟩
      by_cases hexp : c.expires_at < now
      · rw [if_pos hexp] at h
        exact absurd h (by simp)
      · rw [if_neg hexp] at h
        by_cases hcid : c.client_id ≠ body.client_id.getD ""
        · rw [if_pos hcid] at h
          exact absurd h (by simp)
        · rw [if_neg hcid] at h
          by_cases hred : c.redirect_uri ≠ body.redirect_uri.getD ""
          · rw [if_pos hred] at h
            exact absurd h (by simp)
          · rw [if_neg hred] at h
            rcases hv : validateCodeChallenge (body.code_verifier.getD "")
                (c.code_challenge.getD "")
                (if truthy c.code_challenge_method = true then
                  c.code_challenge_method.getD "" else "S256") with _ | _
            · rw [if_pos (by simp [hv])] at h
              exact absurd h (by simp)
            · rw [if_neg (by simp [hv])] at h
              rw [Prod.mk.injEq] at h
              obtain ⟨-, hdb⟩ := h
              rw [← hdb]

/-- Inversion of a successful refresh: the lookup found exactly one row with
the presented refresh token's hash, and the output store is that row rotated
in place. -/
theorem handleRefreshToken_ok_inv (body : TokenBody) (db : Db) (now : Millis)
    (nA nR at2 ty : String) (ei : Nat) (rt sc : String) (db1 : Db)
    (h : handleRefreshToken body db now nA nR = (.ok at2 ty ei rt sc, db1)) :
    ∃ tok : OAuthToken,
      single (db.tokens.filter fun t =>
        t.refresh_token_hash ==
          some (hashToken (body.refresh_token.getD ""))) = some tok ∧
      db1 = rotateTokenRow db tok.id (hashToken nA) (hashToken nR) now := by
  by_cases hg : truthy body.refresh_token = true
  case neg =>
    simp [handleRefreshToken, hg] at h
  case pos =>
    rcases hs : single (db.tokens.filter fun t =>
        t.refresh_token_hash ==
          some (hashToken (body.refresh_token.getD ""))) with _ | tok
    · simp [handleRefreshToken, hg, hs] at h
    · simp only [handleRefreshToken, hg, Bool.not_true, Bool.false_eq_true,
        if_false, hs] at h
      refine ⟨tok, hs, ?_⟩
      rcases hexp : tok.refresh_expires_at.any (fun e => decide (e < now))
        with _ | _
      · rw [hexp] at h
        rcases hcid : truthy body.client_id &&
            !(tok.client_id == body.client_id.getD "") with _ | _
        · rw [hcid] at h
          simp only [Bool.false_eq_true, if_false] at h
          rw [Prod.mk.injEq] at h
          obtain ⟨-, hdb⟩ := h
          exact hdb.symm
        · rw [hcid] at h
          simp only [if_true] at h
          exact absurd h (by simp)
      · rw [hexp] at h
        simp only [if_true] at h
        exact absurd h (by simp)

/-! ## Claims -/

/-- C10: PKCE round trip — for every code-verifier string and every method in
`{S256, plain}`, `validateCodeChallenge verifier (generateCodeChallenge
verifier method) method` returns `true`; both functions are pure, so a
challenge computed at authorization time always validates against the same
verifier at token-exchange time. -/
theorem c10_pkce_round_trip (codeVerifier method : String)
    (hm : method = "S256" ∨ method = "plain") :
    validateCodeChallenge codeVerifier
      (generateCodeChallenge codeVerifier method) method = true := by
  rcases hm with h | h <;> subst h <;>
    simp [validateCodeChallenge, generateCodeChallenge]

/-- C10 witness: the round trip at a concrete verifier under `S256`. -/
theorem c10_pkce_round_trip_witness :
    validateCodeChallenge "verifier-xyz"
      (generateCodeChallenge "verifier-xyz" "S256") "S256" = true :=
  c10_pkce_round_trip "verifier-xyz" "S256" (Or.inl rfl)

theorem revokePost_status (body : RevokeBody) (db : Db)
    (h : truthy body.token = true) : (revokePost body db).1 = 200 := by
  simp only [revokePost, h, Bool.not_true, Bool.false_eq_true, if_false]
  split
  · rfl
  · simp only [deleteByAccessHash]
    split <;> rfl

/-- C7: every revocation request that supplies a (truthy) token value in a
supported body format gets HTTP 200, for every store state — in particular
the status is the same whether a matching row existed or not, and an
immediate second revocation of the same token is also a 200. -/
theorem c7_revoke_always_200 (db : Db) (token : String)
    (hint : Option String) (ht : token ≠ "") :
    (revokePost { token := some token, token_type_hint := hint } db).1 = 200 ∧
    (revokePost { token := some token, token_type_hint := hint }
      (revokePost { token := some token, token_type_hint := hint } db).2).1 = 200 := by
  have h : truthy (some token) = true := by simp [truthy, ht]
  exact ⟨revokePost_status _ _ h, revokePost_status _ _ h⟩

/-- C7 witness: revoking a concrete token against an empty store (nothing
matches) returns 200 twice. -/
theorem c7_revoke_always_200_witness :
    (revokePost { token := some "sha_kb_tok", token_type_hint := none }
      (Db.mk [] [] [] [] [])).1 = 200 ∧
    (revokePost { token := some "sha_kb_tok", token_type_hint := none }
      (revokePost { token := some "sha_kb_tok", token_type_hint := none }
        (Db.mk [] [] [] [] [])).2).1 = 200 :=
  c7_revoke_always_200 (Db.mk [] [] [] [] []) "sha_kb_tok" none (by decide)

/-- C5 counterexample: 60 requests to the same repository within one window,
each from a different calling client — all allowed — do not cause the 61st
same-repository request (from yet another client) to be rejected: there is no
shared per-repository counter once a client id is supplied, so the claimed
per-repository ceiling of 60 is not enforced on gateway calls. -/
theorem c5_rate_limit_counterexample :
    (((List.range 60).foldl
        (fun acc i =>
          let r := checkRateLimit acc.1 "kb1" (some (String.append "c" (toString i))) 0
          (r.2, acc.2 && r.1.allowed))
        (([] : RateStore), true)).2 = true) ∧
    ((checkRateLimit
        ((List.range 60).foldl
          (fun acc i =>
            let r := checkRateLimit acc.1 "kb1" (some (String.append "c" (toString i))) 0
            (r.2, acc.2 && r.1.allowed))
          (([] : RateStore), true)).1
        "kb1" (some "c60") 0).1.allowed = true) := by
  constructor <;> decide

set_option maxRecDepth 100000 in
/-- C5 (amended): the fixed-window limiter is keyed per calling client
(limit `CLIENT_LIMIT = 30`) whenever a non-empty client id is supplied — as
on every gateway call — and per repository (limit `KB_LIMIT = 60`) only when
no client id is supplied; in either keying a request is allowed exactly when
the window counter is below the limit (so a fresh window always admits), the
gateway returns 429 when the check rejects, and in a concrete run the 31st
same-client request in a window is rejected while a request one window later
is allowed. -/
theorem c5_rate_limit_amended :
    (∀ (store : RateStore) (kbId cid : String) (nowMs : Millis), cid ≠ "" →
      ((checkRateLimit store kbId (some cid) nowMs).1.limit = CLIENT_LIMIT ∧
       ((checkRateLimit store kbId (some cid) nowMs).1.allowed = true ↔
        (kvGet store (getRateLimitKey kbId (some cid) nowMs)).getD 0 <
          CLIENT_LIMIT))) ∧
    (∀ (store : RateStore) (kbId : String) (nowMs : Millis),
      ((checkRateLimit store kbId none nowMs).1.limit = KB_LIMIT ∧
       ((checkRateLimit store kbId none nowMs).1.allowed = true ↔
        (kvGet store (getRateLimitKey kbId none nowMs)).getD 0 <
          KB_LIMIT))) ∧
    (∀ (authHeader : Option String) (slug : String) (db db1 : Db)
        (now : Millis) (store : RateStore) (bodyValid : Bool)
        (kb : KnowledgeBase) (userId clientId : String) (scopes : List String)
        (subId : Option String),
      validateToken authHeader slug db now =
        (.valid kb userId clientId scopes subId, db1) →
      userId ≠ "" → clientId ≠ "" →
      (checkRateLimit store kb.id (some clientId) now).1.allowed = false →
      (workerPost authHeader slug db now store bodyValid).1 = 429) ∧
    ((((List.range 30).foldl
        (fun acc _ =>
          let r := checkRateLimit acc.1 "kb1" (some "c0") 0
          (r.2, acc.2 && r.1.allowed))
        (([] : RateStore), true)).2 = true) ∧
     ((checkRateLimit
        ((List.range 30).foldl
          (fun acc _ =>
            let r := checkRateLimit acc.1 "kb1" (some "c0") 0
            (r.2, acc.2 && r.1.allowed))
          (([] : RateStore), true)).1
        "kb1" (some "c0") 0).1.allowed = false) ∧
     ((checkRateLimit
        ((List.range 31).foldl
          (fun st _ => (checkRateLimit st "kb1" (some "c0") 0).2)
          ([] : RateStore))
        "kb1" (some "c0") 60000).1.allowed = true)) := by
  refine ⟨?_, ?_, ?_, ?_⟩
  · intro store kbId cid nowMs hcid
    have hc : (cid == "") = false := by simp [hcid]
    by_cases h : CLIENT_LIMIT ≤
        (kvGet store (getRateLimitKey kbId (some cid) nowMs)).getD 0 <;>
      constructor <;> simp [checkRateLimit, truthy, hc, h] <;> omega
  · intro store kbId nowMs
    by_cases h : KB_LIMIT ≤
        (kvGet store (getRateLimitKey kbId none nowMs)).getD 0 <;>
      constructor <;> simp [checkRateLimit, truthy, h] <;> omega
  · intro authHeader slug db db1 now store bodyValid kb userId clientId scopes
      subId hval hu hc hrate
    have hub : (userId == "") = false := by simp [hu]
    have hcb : (clientId == "") = false := by simp [hc]
    simp only [workerPost, hval, hub, hcb, Bool.or_self, Bool.false_eq_true,
      if_false, hrate, Bool.not_false, if_true]
  · exact ⟨by decide, by decide, by decide⟩

/-- C5 witness: the per-client rejection at a concrete store holding a full
window counter. -/
theorem c5_rate_limit_amended_witness :
    (checkRateLimit [(getRateLimitKey "kb1" (some "c0") 0, 30)]
      "kb1" (some "c0") 0).1.allowed = false := by
  have h := (c5_rate_limit_amended.1
    [(getRateLimitKey "kb1" (some "c0") 0, 30)] "kb1" "c0" 0 (by decide)).2
  have h2 : ¬ ((checkRateLimit [(getRateLimitKey "kb1" (some "c0") 0, 30)]
      "kb1" (some "c0") 0).1.allowed = true) := by
    rw [h]; decide
  exact Bool.eq_false_iff.mpr h2

/-- C8 counterexample: at a concrete worker request whose path slug resolves
to no knowledge base (empty store) and whose bearer credential is
well-formed, the worker gateway answers 401 — not the claimed 404. -/
theorem c8_unknown_slug_counterexample :
    (workerPost (some "Bearer sha_kb_token") "ghost" (Db.mk [] [] [] [] [])
      0 [] true).1 = 401 ∧ (401 : Nat) ≠ 404 := by
  constructor <;> decide

/-- C8 (amended): a request whose slug does not resolve to a known,
gateway-enabled repository is rejected by the worker gateway with HTTP 401
(slug resolution happens inside token validation, whose every failure maps
to 401; with a well-formed bearer token the diagnostic is the dedicated
`Knowledge base not found or MCP not enabled` error), while the separate
Next.js MCP route rejects such a slug with 404. -/
theorem c8_unknown_slug_amended (db : Db) (slug : String)
    (hslug : getKnowledgeBaseBySlug db slug = none) :
    (∀ (authHeader : Option String) (now : Millis) (store : RateStore)
       (bodyValid : Bool),
      (workerPost authHeader slug db now store bodyValid).1 = 401) ∧
    (∀ (header token : String) (now : Millis),
      strSplitOn header " " = ["Bearer", token] →
      strStartsWith token "sha_kb_" = true →
      (validateToken (some header) slug db now).1 =
        .invalid "Knowledge base not found or MCP not enabled") ∧
    nextMcpPost slug db = 404 := by
  have hval : ∀ (authHeader : Option String) (now : Millis),
      ∃ e, validateToken authHeader slug db now = (.invalid e, db) := by
    intro authHeader now
    match authHeader with
    | none => exact ⟨_, rfl⟩
    | some header =>
      simp only [validateToken]
      split
      · exact ⟨_, rfl⟩
      · split
        · exact ⟨_, rfl⟩
        · rw [hslug]
          exact ⟨_, rfl⟩
  refine ⟨?_, ?_, ?_⟩
  · intro authHeader now store bodyValid
    obtain ⟨e, he⟩ := hval authHeader now
    simp only [workerPost, he]
  · intro header token now hsplit hpre
    have hB : strToLower "Bearer" = "bearer" := by decide
    simp [validateToken, hsplit, hB, hpre, hslug]
  · simp only [nextMcpPost, hslug]

/-- C8 witness: the amended behaviour at a concrete unknown slug. -/
theorem c8_unknown_slug_amended_witness :
    (workerPost (some "Bearer sha_kb_token") "ghost" (Db.mk [] [] [] [] [])
      5 [] false).1 = 401 ∧
    (validateToken (some "Bearer sha_kb_token") "ghost" (Db.mk [] [] [] [] [])
      5).1 = .invalid "Knowledge base not found or MCP not enabled" ∧
    nextMcpPost "ghost" (Db.mk [] [] [] [] []) = 404 := by
  have h := c8_unknown_slug_amended (Db.mk [] [] [] [] []) "ghost" (by decide)
  exact ⟨h.1 (some "Bearer sha_kb_token") 5 [] false,
    h.2.1 "Bearer sha_kb_token" "sha_kb_token" 5 (by decide) (by decide),
    h.2.2⟩

/-- C9 counterexample: for the client registered with an empty granted-scope
set (reachable, since registration keeps a supplied empty `scopes` array
verbatim), an authorization request asking only for the unrecognized scope
`bogus` is answered with `invalid_scope` — the endpoint does not issue a code
for the default scopes, contradicting the claim's "instead of returning
invalid_scope". -/
theorem c9_unrecognized_scopes_counterexample :
    (authorizeGET params9 (some "owner") db9 0 "shc_new" "id1").1 =
      .errorRedirect "https://x.test/cb" "invalid_scope"
        "No valid scopes requested" (some "st") := by
  decide

/-- C9 (amended): an absent scope parameter, and a scope parameter none of
whose space-separated entries is a recognized scope name, both parse to the
full default scope set; on such a request the Authorization Endpoint issues a
code for the intersection of the defaults with the client's granted scopes
when that intersection is non-empty, and returns `invalid_scope` when the
client's granted scopes are disjoint from the defaults (e.g. the empty
granted set). -/
theorem c9_parse_scopes_amended :
    (parseScopes none = DEFAULT_SCOPES) ∧
    (∀ s : String,
      ((strSplitOn s " ").filter (fun x => x ≠ "")).all
        (fun x => !(OAUTH_SCOPES.contains x)) = true →
      parseScopes (some s) = DEFAULT_SCOPES) ∧
    (∀ (p : AuthorizeParams) (uid : String) (db : Db) (now : Millis)
        (newAuthCode newCodeId : String) (client : OAuthClient)
        (kb : KnowledgeBase),
      truthy p.client_id = true →
      truthy p.redirect_uri = true →
      p.response_type = some "code" →
      truthy p.code_challenge = true →
      p.code_challenge_method = some "S256" →
      lookupClientWithKb db (p.client_id.getD "") = some (client, kb) →
      kb.user_id = uid →
      isValidRedirectUri (p.redirect_uri.getD "") client.redirect_uris = true →
      parseScopes p.scope = DEFAULT_SCOPES →
      (authorizeGET p (some uid) db now newAuthCode newCodeId).1 =
        (if (DEFAULT_SCOPES.filter fun s => client.scopes.contains s).isEmpty then
          AuthorizeResult.errorRedirect (p.redirect_uri.getD "") "invalid_scope"
            "No valid scopes requested" p.state
         else
          AuthorizeResult.codeRedirect (p.redirect_uri.getD "") newAuthCode
            p.state)) := by
  refine ⟨rfl, ?_, ?_⟩
  · intro s h
    by_cases hs : s = ""
    · simp [parseScopes, hs]
    · have hnil : ((strSplitOn s " ").filter (fun x => x ≠ "")).filter
          (fun x => OAUTH_SCOPES.contains x) = [] := by
        rw [List.filter_eq_nil_iff]
        intro a ha
        have := (List.all_eq_true.mp h) a ha
        simpa using this
      simp only [parseScopes, if_neg hs, hnil]
      rfl
  · intro p uid db now newAuthCode newCodeId client kb h1 h2 h3 h4 h5 h6 h7 h8 h9
    simp only [authorizeGET, h1, h2, h3, h4, h5, h6, h7, h8, h9,
      Bool.not_true, Bool.false_eq_true, if_false, ne_eq, not_true_eq_false,
      ite_not]
    split <;> simp_all

/-- C9 witness: the same unrecognized-scope request against a client granted
`["search"]` issues a code (for the non-empty intersection with the
defaults). -/
theorem c9_parse_scopes_amended_witness :
    (authorizeGET params9 (some "owner") db9b 0 "shc_w" "idw").1 =
      .codeRedirect "https://x.test/cb" "shc_w" (some "st") := by
  have h := c9_parse_scopes_amended.2.2 params9 "owner" db9b 0 "shc_w" "idw"
    client9b kb9 (by decide) (by decide) (by decide) (by decide) (by decide)
    (by decide) (by decide) (by decide) (by decide)
  rw [h]
  decide

/-- C2: at most one `authorization_code` exchange succeeds per code — a
successful exchange leaves no unused row with that code's hash in the output
store (the code is marked consumed in the same step that issues the tokens),
so a second well-formed exchange attempt with the same code returns
`invalid_grant`; an exchange of a found-but-expired code returns
`invalid_grant` while marking the row consumed as a side effect; and the
code lifetime constant is 10 minutes. -/
theorem c2_auth_code_single_use :
    (∀ (body : TokenBody) (db : Db) (now : Millis) (a r i at2 ty : String)
        (ei : Nat) (rt sc : String) (db1 : Db),
      handleAuthorizationCode body db now a r i = (.ok at2 ty ei rt sc, db1) →
      ((db1.codes.filter fun x =>
          x.code_hash == hashToken (body.code.getD "") &&
            x.used_at == none) = [] ∧
       (∀ (body2 : TokenBody) (now2 : Millis) (a2 r2 i2 : String),
         body2.code = body.code →
         truthy body2.code = true → truthy body2.redirect_uri = true →
         truthy body2.client_id = true → truthy body2.code_verifier = true →
         (handleAuthorizationCode body2 db1 now2 a2 r2 i2).1 =
           .err "invalid_grant" "Invalid or expired authorization code"))) ∧
    (∀ (body : TokenBody) (db : Db) (now : Millis) (a r i : String)
        (c : OAuthCode),
      truthy body.code = true → truthy body.redirect_uri = true →
      truthy body.client_id = true → truthy body.code_verifier = true →
      single (db.codes.filter fun x =>
        x.code_hash == hashToken (body.code.getD "") && x.used_at == none) =
          some c →
      c.expires_at < now →
      handleAuthorizationCode body db now a r i =
        (.err "invalid_grant" "Authorization code has expired",
         markCodeUsed db c.id now)) ∧
    AUTH_CODE_EXPIRY = 10 * 60 := by
  refine ⟨?_, ?_, rfl⟩
  · intro body db now a r i at2 ty ei rt sc db1 h
    obtain ⟨c, hs, hcodes⟩ :=
      handleAuthorizationCode_ok_inv body db now a r i at2 ty ei rt sc db1 h
    have hfilter := (single_eq_some_iff _ _).mp hs
    have hnil := filter_markCodeUsed_eq_nil db _ c now hfilter
    constructor
    · rw [hcodes]
      exact hnil
    · intro body2 now2 a2 r2 i2 hcode h1 h2 h3 h4
      have hnil2 : (db1.codes.filter fun x =>
          x.code_hash == hashToken (body2.code.getD "") &&
            x.used_at == none) = [] := by
        rw [hcode, hcodes]
        exact hnil
      simp [handleAuthorizationCode, h1, h2, h3, h4, hnil2, single]
  · intro body db now a r i c h1 h2 h3 h4 hs hexp
    simp [handleAuthorizationCode, h1, h2, h3, h4, hs, hexp]

set_option maxRecDepth 1000000 in
/-- C2 witness: a concrete code exchanges successfully once; the immediate
replay with the same request returns `invalid_grant`. -/
theorem c2_auth_code_single_use_witness :
    (handleAuthorizationCode body2c
      (handleAuthorizationCode body2c db2c 1000 "sha_kb_A" "shr_B" "tid").2
      2000 "a2" "r2" "t2").1 =
      .err "invalid_grant" "Invalid or expired authorization code" := by
  have h : handleAuthorizationCode body2c db2c 1000 "sha_kb_A" "shr_B" "tid" =
      (.ok "sha_kb_A" "Bearer" ACCESS_TOKEN_EXPIRY "shr_B" "search get_info",
       (handleAuthorizationCode body2c db2c 1000 "sha_kb_A" "shr_B" "tid").2) := by
    decide
  exact (c2_auth_code_single_use.1 body2c db2c 1000 "sha_kb_A" "shr_B" "tid"
      _ _ _ _ _ _ h).2 body2c 2000 "a2" "r2" "t2" rfl (by decide) (by decide)
    (by decide) (by decide)

/-- C3: a successful `refresh_token` grant rotates the same stored row in
place — overwriting both hashes, both expiries and the last-used time — so
(whenever the fresh refresh token hashes differently from the presented one)
the output store has no row matching the old refresh-token hash, and a
subsequent well-formed refresh presenting the old value returns
`invalid_grant`, whether or not the new pair is ever used. -/
theorem c3_refresh_rotation_invalidates_old (body : TokenBody) (db : Db)
    (now : Millis) (nA nR at2 ty : String) (ei : Nat) (rt sc : String)
    (db1 : Db)
    (h : handleRefreshToken body db now nA nR = (.ok at2 ty ei rt sc, db1))
    (hne : hashToken nR ≠ hashToken (body.refresh_token.getD "")) :
    (∃ tok : OAuthToken,
      single (db.tokens.filter fun t =>
        t.refresh_token_hash ==
          some (hashToken (body.refresh_token.getD ""))) = some tok ∧
      db1 = rotateTokenRow db tok.id (hashToken nA) (hashToken nR) now ∧
      ({ tok with
          access_token_hash := hashToken nA
          refresh_token_hash := some (hashToken nR)
          expires_at := now + ACCESS_TOKEN_EXPIRY * 1000
          refresh_expires_at := some (now + REFRESH_TOKEN_EXPIRY * 1000)
          last_used_at := some now } : OAuthToken) ∈ db1.tokens) ∧
    (db1.tokens.filter fun t =>
      t.refresh_token_hash ==
        some (hashToken (body.refresh_token.getD ""))) = [] ∧
    (∀ (body2 : TokenBody) (now2 : Millis) (nA2 nR2 : String),
      body2.refresh_token = body.refresh_token →
      truthy body2.refresh_token = true →
      (handleRefreshToken body2 db1 now2 nA2 nR2).1 =
        .err "invalid_grant" "Invalid refresh token") := by
  obtain ⟨tok, hs, hdb⟩ :=
    handleRefreshToken_ok_inv body db now nA nR at2 ty ei rt sc db1 h
  have hfilter := (single_eq_some_iff _ _).mp hs
  have hnil := filter_rotateTokenRow_eq_nil db _ tok (hashToken nA)
    (hashToken nR) now hfilter hne
  have hmemtok : tok ∈ db.tokens := by
    have : tok ∈ db.tokens.filter fun t =>
        t.refresh_token_hash ==
          some (hashToken (body.refresh_token.getD "")) := by
      rw [hfilter]
      exact List.mem_singleton_self _
    exact (List.mem_filter.mp this).1
  refine ⟨⟨tok, hs, hdb, ?_⟩, ?_, ?_⟩
  · rw [hdb]
    simp only [rotateTokenRow]
    rw [List.mem_map]
    exact ⟨tok, hmemtok, by simp⟩
  · rw [hdb]
    exact hnil
  · intro body2 now2 nA2 nR2 hsame hgate
    have hnil2 : (db1.tokens.filter fun t =>
        t.refresh_token_hash ==
          some (hashToken (body2.refresh_token.getD ""))) = [] := by
      rw [hsame, hdb]
      exact hnil
    simp [handleRefreshToken, hgate, hnil2, single]

set_option maxRecDepth 1000000 in
/-- C3 witness: a concrete refresh succeeds, and replaying the old refresh
token against the rotated store returns `invalid_grant`. -/
theorem c3_refresh_rotation_invalidates_old_witness :
    (handleRefreshToken body3c
      (handleRefreshToken body3c db3c 1000 "sha_kb_new" "shr_new").2
      2000 "x" "y").1 = .err "invalid_grant" "Invalid refresh token" := by
  have h : handleRefreshToken body3c db3c 1000 "sha_kb_new" "shr_new" =
      (.ok "sha_kb_new" "Bearer" ACCESS_TOKEN_EXPIRY "shr_new" "search",
       (handleRefreshToken body3c db3c 1000 "sha_kb_new" "shr_new").2) := by
    decide
  exact (c3_refresh_rotation_invalidates_old body3c db3c 1000 "sha_kb_new"
      "shr_new" _ _ _ _ _ _ h (by decide)).2.2 body3c 2000 "x" "y" rfl
    (by decide)

/-- C4: for a paid-tier repository and a token whose holder is not the
owner, worker-side validation re-checks the linked subscription at request
time and rejects — even an unexpired token — whenever the link is absent,
the linked row is missing, its status is outside `{active, trialing}`, or
its period end has passed; every validation failure surfaces as HTTP 401 at
the gateway; and the Entitlement Resolver denies a `past_due` principal
under the same conditions. -/
theorem c4_paid_subscription_recheck :
    (∀ (db : Db) (token : OAuthToken) (kb : KnowledgeBase)
        (tokenHash : String) (now : Millis),
      single (db.tokens.filter fun t => t.access_token_hash == tokenHash) =
        some token →
      db.kbs.find? (fun k => k.id == token.knowledge_base_id) = some kb →
      kb.pricing_model = "paid" →
      token.user_id ≠ kb.user_id →
      ¬ token.expires_at < now →
      ((token.subscription_id = none →
        (validateAccessToken db tokenHash now).1 =
          .invalid "Subscription required for this knowledge base") ∧
       (∀ sid, token.subscription_id = some sid →
        single (db.subs.filter fun s => s.id == sid) = none →
        (validateAccessToken db tokenHash now).1 =
          .invalid "Subscription required for this knowledge base") ∧
       (∀ sid sub, token.subscription_id = some sid →
        single (db.subs.filter fun s => s.id == sid) = some sub →
        sub.status ≠ "active" → sub.status ≠ "trialing" →
        (validateAccessToken db tokenHash now).1 =
          .invalid "Subscription is not active") ∧
       (∀ sid sub e, token.subscription_id = some sid →
        single (db.subs.filter fun s => s.id == sid) = some sub →
        ¬ (sub.status ≠ "active" ∧ sub.status ≠ "trialing") →
        sub.current_period_end = some e → e < now →
        (validateAccessToken db tokenHash now).1 =
          .invalid "Subscription has expired"))) ∧
    (∀ (db : Db) (kb : KnowledgeBase) (kbId uid : String) (now : Millis),
      single (db.kbs.filter fun k => k.id == kbId) = some kb →
      kb.user_id ≠ uid → kb.visibility = "public" → kb.mcp_enabled = true →
      kb.pricing_model = "paid" →
      (∀ s ∈ db.subs, s.knowledge_base_id = kbId → s.subscriber_id = uid →
        s.status = "past_due") →
      hasKBAccess db kbId uid now = .denied) ∧
    (∀ (header slug : String) (db db2 : Db) (now : Millis)
        (store : RateStore) (bodyValid : Bool) (e : String),
      validateToken (some header) slug db now = (.invalid e, db2) →
      (workerPost (some header) slug db now store bodyValid).1 = 401) ∧
    (∀ (header token2 slug : String) (db db2 : Db) (now : Millis)
        (kb0 : KnowledgeBase) (e : String),
      strSplitOn header " " = ["Bearer", token2] →
      strStartsWith token2 "sha_kb_" = true →
      getKnowledgeBaseBySlug db slug = some kb0 →
      validateAccessToken db (hashToken token2) now = (.invalid e, db2) →
      validateToken (some header) slug db now = (.invalid e, db2)) := by
  refine ⟨?_, ?_, ?_, ?_⟩
  · intro db token kb tokenHash now htok hkb hpaid hown hnexp
    have hub : (token.user_id == kb.user_id) = false := by simp [hown]
    refine ⟨?_, ?_, ?_, ?_⟩
    · intro hsid
      simp [validateAccessToken, htok, hkb, hpaid, hub, hsid, hnexp]
    · intro sid hsid hsub
      simp [validateAccessToken, htok, hkb, hpaid, hub, hsid, hsub, hnexp]
    · intro sid sub hsid hsub hsa hst
      simp [validateAccessToken, htok, hkb, hpaid, hub, hsid, hsub, hnexp,
        hsa, hst]
    · intro sid sub e hsid hsub hns hce he
      simp [validateAccessToken, htok, hkb, hpaid, hub, hsid, hsub, hnexp,
        hns, hce, he]
  · intro db kb kbId uid now hkb hown hvis hmcp hpaid hsubs
    have hub : (kb.user_id == uid) = false := by simp [hown]
    have hnil : (db.subs.filter fun s =>
        s.knowledge_base_id == kbId && s.subscriber_id == uid &&
        (s.status == "active" || s.status == "trialing")) = [] := by
      rw [List.filter_eq_nil_iff]
      intro s hsmem hP
      simp only [Bool.and_eq_true, beq_iff_eq, Bool.or_eq_true] at hP
      obtain ⟨⟨hk, hu⟩, hst⟩ := hP
      have hpd := hsubs s hsmem hk hu
      rcases hst with h | h <;> simp [hpd] at h
    simp only [hasKBAccess]
    rw [hkb]
    simp [hub, hvis, hmcp, hpaid, hnil, single]
  · intro header slug db db2 now store bodyValid e hval
    simp only [workerPost, hval]
  · intro header token2 slug db db2 now kb0 e hsplit hpre hslug hvalacc
    have hB : strToLower "Bearer" = "bearer" := by decide
    simp [validateToken, hsplit, hB, hpre, hslug, hvalacc]

/-- C4 witness: the concrete paid repository with a `past_due` subscriber —
the unexpired token is rejected by worker validation and the Entitlement
Resolver denies the same principal. -/
theorem c4_paid_subscription_recheck_witness :
    (validateAccessToken db4c "ath4" 1000).1 =
      .invalid "Subscription is not active" ∧
    hasKBAccess db4c "kb4" "stranger" 1000 = .denied := by
  have h := c4_paid_subscription_recheck
  refine ⟨?_, ?_⟩
  · exact (h.1 db4c tok4c kb4c "ath4" 1000 (by decide) (by decide) (by decide)
      (by decide) (by decide)).2.2.1 "sub4" sub4c (by decide) (by decide)
      (by decide) (by decide)
  · exact h.2.1 db4c kb4c "kb4" "stranger" 1000 (by decide) (by decide)
      (by decide) (by decide) (by decide) (by decide)

/-- C6: the Entitlement Resolver decides in order: (a) the owner is always
allowed; (b) a repository that is not public or has the gateway disabled is
denied; (c) a free-tier repository is allowed, and the lazy
usage-tracking Subscription insert is idempotent — a unique-constraint
conflict resolves to fetching the existing record (no error), while a first
access inserts an `active` record; (d) otherwise access requires a
subscription with status in `{active, trialing}` whose period end is null or
not yet elapsed — a matching active/trialing subscription whose period end
has elapsed is denied — and the decision carries that subscription's id. -/
theorem c6_entitlement_decision_order :
    (∀ (db : Db) (kb : KnowledgeBase) (kbId uid : String) (now : Millis),
      single (db.kbs.filter fun k => k.id == kbId) = some kb →
      ((kb.user_id = uid → hasKBAccess db kbId uid now = .allowed none) ∧
       (kb.user_id ≠ uid →
        (kb.visibility ≠ "public" ∨ kb.mcp_enabled = false) →
        hasKBAccess db kbId uid now = .denied) ∧
       (kb.user_id ≠ uid → kb.visibility = "public" → kb.mcp_enabled = true →
        kb.pricing_model = "free" →
        hasKBAccess db kbId uid now = .allowed none) ∧
       (kb.user_id ≠ uid → kb.visibility = "public" → kb.mcp_enabled = true →
        kb.pricing_model ≠ "free" →
        single (db.subs.filter fun s =>
          s.knowledge_base_id == kbId && s.subscriber_id == uid &&
          (s.status == "active" || s.status == "trialing")) = none →
        hasKBAccess db kbId uid now = .denied) ∧
       (∀ sub : Subscription,
        kb.user_id ≠ uid → kb.visibility = "public" → kb.mcp_enabled = true →
        kb.pricing_model ≠ "free" →
        single (db.subs.filter fun s =>
          s.knowledge_base_id == kbId && s.subscriber_id == uid &&
          (s.status == "active" || s.status == "trialing")) = some sub →
        (∀ e, sub.current_period_end = some e → ¬ e < now) →
        hasKBAccess db kbId uid now = .allowed (some (sub.id, sub.status))) ∧
       (∀ (sub : Subscription) (e : Millis),
        kb.user_id ≠ uid → kb.visibility = "public" → kb.mcp_enabled = true →
        kb.pricing_model ≠ "free" →
        single (db.subs.filter fun s =>
          s.knowledge_base_id == kbId && s.subscriber_id == uid &&
          (s.status == "active" || s.status == "trialing")) = some sub →
        sub.current_period_end = some e → e < now →
        hasKBAccess db kbId uid now = .denied))) ∧
    (∀ (db : Db) (kbId uid newSubId : String) (s0 : Subscription),
      db.subs.filter (fun s =>
        s.knowledge_base_id == kbId && s.subscriber_id == uid) = [s0] →
      createFreeSubscription db kbId uid newSubId = (some s0.id, db)) ∧
    (∀ (db : Db) (kbId uid newSubId : String),
      db.subs.filter (fun s =>
        s.knowledge_base_id == kbId && s.subscriber_id == uid) = [] →
      createFreeSubscription db kbId uid newSubId =
        (some newSubId,
         { db with subs := db.subs ++
            [{ id := newSubId, knowledge_base_id := kbId,
               subscriber_id := uid, status := "active",
               current_period_end := none }] })) := by
  refine ⟨?_, ?_, ?_⟩
  · intro db kb kbId uid now hkb
    refine ⟨?_, ?_, ?_, ?_, ?_, ?_⟩
    · intro hown
      simp only [hasKBAccess]
      rw [hkb]
      simp [hown]
    · intro hown hgate
      have hub : (kb.user_id == uid) = false := by simp [hown]
      simp only [hasKBAccess]
      rw [hkb]
      simp only [hub, Bool.false_eq_true, if_false, if_pos hgate]
    · intro hown hvis hmcp hfree
      have hub : (kb.user_id == uid) = false := by simp [hown]
      simp only [hasKBAccess]
      rw [hkb]
      simp [hub, hvis, hmcp, hfree]
    · intro hown hvis hmcp hnf hsub
      have hub : (kb.user_id == uid) = false := by simp [hown]
      simp only [hasKBAccess]
      rw [hkb]
      simp [hub, hvis, hmcp, hnf, hsub]
    · intro sub hown hvis hmcp hnf hsub hperiod
      have hub : (kb.user_id == uid) = false := by simp [hown]
      have hany : sub.current_period_end.any (fun e => decide (e < now)) =
          false := by
        cases hce : sub.current_period_end with
        | none => rfl
        | some e => simp [Option.any, hperiod e hce]
      simp only [hasKBAccess]
      rw [hkb]
      simp [hub, hvis, hmcp, hnf, hsub, hany]
    · intro sub e hown hvis hmcp hnf hsub hce he
      have hub : (kb.user_id == uid) = false := by simp [hown]
      have hany : sub.current_period_end.any (fun x => decide (x < now)) =
          true := by
        simp [Option.any, hce, he]
      simp only [hasKBAccess]
      rw [hkb]
      simp [hub, hvis, hmcp, hnf, hsub, hany]
  · intro db kbId uid newSubId s0 hfilter
    have hmem : s0 ∈ db.subs.filter (fun s =>
        s.knowledge_base_id == kbId && s.subscriber_id == uid) := by
      rw [hfilter]
      exact List.mem_singleton_self _
    have hany : (db.subs.any fun s =>
        s.knowledge_base_id == kbId && s.subscriber_id == uid) = true := by
      rw [List.any_eq_true]
      exact ⟨s0, (List.mem_filter.mp hmem).1, (List.mem_filter.mp hmem).2⟩
    simp [createFreeSubscription, hany, hfilter, single]
  · intro db kbId uid newSubId hfilter
    have hany : (db.subs.any fun s =>
        s.knowledge_base_id == kbId && s.subscriber_id == uid) = false := by
      rw [← Bool.not_eq_true, List.any_eq_true]
      rintro ⟨s, hsmem, hP⟩
      have : s ∈ db.subs.filter (fun s =>
          s.knowledge_base_id == kbId && s.subscriber_id == uid) :=
        List.mem_filter.mpr ⟨hsmem, hP⟩
      rw [hfilter] at this
      simp at this
    simp [createFreeSubscription, hany]

/-- C6 witness: concrete decisions — the owner of the free repository, a
stranger on the free repository, the `active` subscriber on the paid
repository, the subscriber whose `active` subscription's period end has
elapsed (denied); plus the idempotent lazy insert: a conflicting insert
returns the existing record id and an insert with no existing record appends
an `active` row. -/
theorem c6_entitlement_decision_order_witness :
    hasKBAccess db6f "kbF" "ownerF" 0 = .allowed none ∧
    hasKBAccess db6f "kbF" "bob" 0 = .allowed none ∧
    hasKBAccess db6p "kbP" "alice" 0 = .allowed (some ("subP", "active")) ∧
    hasKBAccess db6x "kbP" "carol" 1000 = .denied ∧
    createFreeSubscription db6p "kbP" "alice" "newS" = (some "subP", db6p) ∧
    createFreeSubscription db6f "kbF" "bob" "newS" =
      (some "newS", { db6f with subs := db6f.subs ++
        [{ id := "newS", knowledge_base_id := "kbF", subscriber_id := "bob",
           status := "active", current_period_end := none }] }) := by
  have h := c6_entitlement_decision_order
  refine ⟨?_, ?_, ?_, ?_, ?_, ?_⟩
  · exact (h.1 db6f kb6f "kbF" "ownerF" 0 (by decide)).1 rfl
  · exact (h.1 db6f kb6f "kbF" "bob" 0 (by decide)).2.2.1 (by decide) rfl rfl
      rfl
  · exact (h.1 db6p kb6p "kbP" "alice" 0 (by decide)).2.2.2.2.1 sub6p
      (by decide) rfl rfl (by decide) (by decide)
      (by intro e he; simp [sub6p] at he)
  · exact (h.1 db6x kb6p "kbP" "carol" 1000 (by decide)).2.2.2.2.2 sub6x 500
      (by decide) rfl rfl (by decide) (by decide) (by decide) (by decide)
  · exact h.2.1 db6p "kbP" "alice" "newS" sub6p (by decide)
  · exact h.2.2 db6f "kbF" "bob" "newS" (by decide)

set_option maxRecDepth 1000000 in
/-- C1 (code defect): the Authorization Endpoint does reject a revoked
client (`invalid_client`), but the Token Endpoint's `authorization_code`
handler never reads `oauth_clients.revoked_at` — at a concrete store whose
only client is revoked, exchanging a valid, unused, unexpired code issued
for that client succeeds and returns a fresh token pair, violating the
claimed invariant. -/
theorem c1_revoked_client_token_exchange_bug :
    client1c.revoked_at = some 500 ∧
    (∀ cl ∈ db1c.clients, cl.revoked_at ≠ none) ∧
    (authorizeGET params1c (some "owner") db1c 1000 "shc_new" "idn").1 =
      .errorRedirect "https://x.test/cb" "invalid_client"
        "Invalid or revoked client" none ∧
    (handleAuthorizationCode body1c db1c 1000 "sha_kb_A" "shr_B" "tid").1 =
      .ok "sha_kb_A" "Bearer" ACCESS_TOKEN_EXPIRY "shr_B" "search" := by
  exact ⟨rfl, by decide, by decide, by decide⟩

end Sharedog
